import Mathlib

/-!
Verification of the weather_insights_and_forecast_advisor repository.

This file shallowly embeds the parts of the repository that the claims
concern:

* `src/frontend/src/services/api.js` — the `WeatherAgentAPI` client:
  response-text extraction in `query` / `queryWithImage`, session validity,
  `clearBrowserState`, the error paths of `getAlerts` / `findResources` /
  `geocode`, the `/run` request bodies, and `getSuggestedActions`.
* `src/deploy_agents_lab.sh` — the wait/tally loop, the env-file append in
  `deploy_agent`, and its mkdir-based lock.
* the `TourProvider` guided-tour state machine.

JSON values flowing through the client are modelled by `JsValue`; JavaScript
property access, optional chaining, truthiness, string coercion and `for..of`
iteration are modelled explicitly, with a thrown `TypeError` represented by
`Except.error ()`.
-/

/-- A JSON value as delivered to the client (axios parses response bodies
into such values). -/
inductive JsValue where
  | null
  | bool (b : Bool)
  | num (n : Int)
  | str (s : String)
  | arr (elems : List JsValue)
  | obj (fields : List (String × JsValue))

/-- First-match lookup of an object field. -/
def lookupField : List (String × JsValue) → String → Option JsValue
  | [], _ => none
  | (k, v) :: rest, key => if k = key then some v else lookupField rest key

/-- JavaScript truthiness of a JSON value ([] and \x7b\x7d are truthy). -/
def truthy : JsValue → Bool
  | .null => false
  | .bool b => b
  | .num n => n != 0
  | .str s => s != ""
  | .arr _ => true
  | .obj _ => true

/-- Model of `String.prototype.startsWith`, computed structurally on the character
lists. -/
def beginsWith (s pat : String) : Bool := pat.toList.isPrefixOf s.toList

/-- Character-wise string map, computed structurally. -/
def mapChars (f : Char → Char) (s : String) : String :=
  String.mk (s.toList.map f)

/-- The whitespace stripped by `String.prototype.trim`. -/
def isTrimmedChar (c : Char) : Bool :=
  c == ' ' || c == '\t' || c == '\n' || c == '\r' || c == '\x0b' || c == '\x0c'

/-- Model of `String.prototype.trim`, computed structurally. -/
def trimJs (s : String) : String :=
  String.mk (((s.toList.dropWhile isTrimmedChar).reverse.dropWhile
    isTrimmedChar).reverse)

/-- Split a character list at every newline. -/
def splitNewline : List Char → List (List Char)
  | [] => [[]]
  | c :: rest =>
    if c = '\n' then [] :: splitNewline rest
    else
      match splitNewline rest with
      | [] => [[c]]
      | g :: gs => (c :: g) :: gs

/-- Model of `content.split('\n')`. -/
def splitLines (s : String) : List String :=
  (splitNewline s.toList).map String.mk

/-- JavaScript property access `v.k`: throws a TypeError (`Except.error`)
when the receiver is `null`; yields `undefined` (modelled `none`) when the
field is missing or the receiver is a non-object. -/
def getProp : JsValue → String → Except Unit (Option JsValue)
  | .null, _ => .error ()
  | .obj fields, k => .ok (lookupField fields k)
  | _, _ => .ok none

mutual

/-- JavaScript string coercion of a JSON value, as performed by `+=`. -/
def jsToString : JsValue → String
  | .null => "null"
  | .bool b => if b then "true" else "false"
  | .num n => toString n
  | .str s => s
  | .arr elems => String.intercalate "," (jsArrayToStrings elems)
  | .obj _ => "[object Object]"

/-- Element coercion used by `Array.prototype.toString` (its `join` turns
`null` elements into the empty string). -/
def jsArrayToStrings : List JsValue → List String
  | [] => []
  | .null :: rest => "" :: jsArrayToStrings rest
  | v :: rest => jsToString v :: jsArrayToStrings rest

end

/-- The value of the expression `e.content?.parts` in `query` and
`queryWithImage` (api.js lines 192 and 201): `.content` throws on a `null`
receiver, the `?.` short-circuits on a `null` or missing `content`. -/
def contentPartsExpr (e : JsValue) : Except Unit (Option JsValue) := do
  let c ← getProp e "content"
  match c with
  | none => pure none
  | some .null => pure none
  | some cv => getProp cv "parts"

/-- Model of `for..of` iteration: arrays yield their elements, strings their
characters (as one-character strings); every other value is not iterable
and raises a TypeError. -/
def iterateJs : JsValue → Except Unit (List JsValue)
  | .arr elems => .ok elems
  | .str s => .ok (s.toList.map (fun c => .str (String.singleton c)))
  | _ => .error ()

/-- The inner loop of `query` (api.js lines 193–199):
`for (const part of parts) if (part.text) responseText += part.text`.
`part.text` throws when `part` is `null`. -/
def appendPartTexts (acc : String) : List JsValue → Except Unit String
  | [] => .ok acc
  | part :: rest => do
    let t ← getProp part "text"
    match t with
    | some tv =>
      if truthy tv then appendPartTexts (acc ++ jsToString tv) rest
      else appendPartTexts acc rest
    | none => appendPartTexts acc rest

/-- Processing of one event (api.js lines 192–200): when
`event.content?.parts` is truthy, iterate it and append the truthy texts. -/
def processEvent (acc : String) (e : JsValue) : Except Unit String := do
  let p ← contentPartsExpr e
  match p with
  | some pv =>
    if truthy pv then do
      let parts ← iterateJs pv
      appendPartTexts acc parts
    else .ok acc
  | none => .ok acc

/-- Folding the event array of a `/run` response (api.js lines 191–200). -/
def foldEvents (acc : String) : List JsValue → Except Unit String
  | [] => .ok acc
  | e :: rest => do
    let acc2 ← processEvent acc e
    foldEvents acc2 rest

/-- The response-text extraction of `query` and `queryWithImage`
(api.js lines 185–209 and 283–307): an array body is folded event by event;
any other body goes through the `data.content?.parts` fallback branch, which
throws a TypeError when the body itself is `null`. -/
def extractResponseText (data : JsValue) : Except Unit String :=
  match data with
  | .arr events => foldEvents "" events
  | other => processEvent "" other

/-! ### Claim-side view of the `/run` response contract (C1) -/

/-- In-order concatenation of a list of strings. -/
def concatAll : List String → String
  | [] => ""
  | s :: rest => s ++ concatAll rest

/-- Claim wording: the text field of a part, empty when absent or not a
string. -/
def claimPartText : JsValue → String
  | .obj fields =>
    match lookupField fields "text" with
    | some (.str s) => s
    | _ => ""
  | _ => ""

/-- Claim wording: the parts under `content.parts` of an event, empty when the
event has no such array. -/
def claimParts (e : JsValue) : List JsValue :=
  match e with
  | .obj fields =>
    match lookupField fields "content" with
    | some (.obj cf) =>
      match lookupField cf "parts" with
      | some (.arr ps) => ps
      | _ => []
    | _ => []
  | _ => []

/-- Claim wording: concatenation of every non-empty text over the parts
of an event. -/
def claimEventText (e : JsValue) : String :=
  concatAll ((claimParts e).map claimPartText)

/-- Claim wording for the whole response body: concatenation over all
events of an array body, the part texts of the single object otherwise, and the
empty string in every remaining case. -/
def claimResponseText (data : JsValue) : String :=
  match data with
  | .arr events => concatAll (events.map claimEventText)
  | other => claimEventText other

/-- A part value on which the extraction loop is well behaved: not `null`
(`part.text` would throw) and with a `text` field that is absent or a
string. -/
def wfPart : JsValue → Bool
  | .null => false
  | .obj fields =>
    match lookupField fields "text" with
    | none => true
    | some (.str _) => true
    | some _ => false
  | _ => true

/-- A well-behaved value for `event.content?.parts`: absent, falsy, or an
array of well-behaved parts. -/
def wfPartsVal : Option JsValue → Bool
  | none => true
  | some v =>
    if truthy v then
      match v with
      | .arr ps => ps.all wfPart
      | _ => false
    else true

/-- An event object as described by the spec: an object whose
`content.parts`, when present and truthy, is an array of well-behaved
parts. -/
def wfEvent (e : JsValue) : Bool :=
  match e with
  | .obj _ =>
    match contentPartsExpr e with
    | .ok p => wfPartsVal p
    | .error _ => false
  | _ => false

/-- Response bodies within the scope of the amended claim: arrays of event
objects, non-null bodies whose `content?.parts` is well behaved, and
primitive non-null bodies. `null` is excluded: on it the extraction
throws. -/
def wfResponse (data : JsValue) : Bool :=
  match data with
  | .arr events => events.all wfEvent
  | .null => false
  | .obj _ =>
    match contentPartsExpr data with
    | .ok p => wfPartsVal p
    | .error _ => false
  | _ => true

/-- View of a `content?.parts` value as the list of parts the claim talks
about: the elements when it is an array, nothing otherwise. -/
def partsView : Option JsValue → List JsValue
  | some (.arr ps) => ps
  | _ => []

/-! ### Browser state and `clearBrowserState` (C2) -/

/-- Model of `localStorage` / `sessionStorage` contents: key-value pairs in
enumeration order. -/
structure BrowserState where
  localStore : List (String × String)
  sessionStore : List (String × String)
deriving Repr, DecidableEq

/-- The six key groups removed by `clearBrowserState`
(api.js lines 103–108). -/
def clearedKeyTags : List String :=
  ["dashboard", "weather_agent", "chat", "forecast", "risk", "emergency"]

/-- Whether `clearBrowserState` removes the key. -/
def keyIsCleared (k : String) : Bool :=
  clearedKeyTags.any (fun tag => beginsWith k tag)

/-- Model of `clearBrowserState` (api.js lines 96–119): removes the localStorage keys
starting with one of the six tags, then clears all of sessionStorage. -/
def clearBrowserState (st : BrowserState) : BrowserState :=
  { localStore := st.localStore.filter (fun kv => !(keyIsCleared kv.1))
    sessionStore := [] }

/-- The pieces of an axios error the catch blocks inspect:
`error.response?.status`, `error.response?.data?.message`, and
`error.message`. -/
structure HttpError where
  status : Option Nat
  dataMessage : Option String
  message : String
deriving Repr, DecidableEq

/-- Model of `error.response?.data?.message || error.message || fallback`
(the empty string is falsy). -/
def errorMessageOr (e : HttpError) (fallback : String) : String :=
  match e.dataMessage with
  | some m =>
    if m = "" then (if e.message = "" then fallback else e.message) else m
  | none => if e.message = "" then fallback else e.message

/-- Model of `error.response?.status === 404 || error.response?.status === 401`
(api.js line 228). -/
def isSessionInvalidStatus (e : HttpError) : Bool :=
  e.status == some 404 || e.status == some 401

/-- The catch block of `query` (api.js lines 220–234): on 401/404 it calls
`clearBrowserState`, then rethrows with the derived message. -/
def queryCatch (e : HttpError) (st : BrowserState) : BrowserState × String :=
  (if isSessionInvalidStatus e then clearBrowserState st else st,
   errorMessageOr e "Failed to query agent")

/-- The catch block of `queryWithImage` (api.js lines 318–332). -/
def queryWithImageCatch (e : HttpError) (st : BrowserState) :
    BrowserState × String :=
  (if isSessionInvalidStatus e then clearBrowserState st else st,
   errorMessageOr e "Failed to query agent with image")

/-! ### The wait/tally loop of the deployment script (C3) -/

/-- Exit status of the bash arithmetic command `((var++))`: the command
fails (status 1) exactly when the expression evaluates to 0, and a
post-increment evaluates to the old value of the variable. -/
def postIncrementStatusOk (old : Nat) : Bool := old != 0

/-- The two counters of the wait loop (deploy_agents_lab.sh lines
133–134). -/
structure WaitTally where
  successCount : Nat
  failedCount : Nat
deriving Repr, DecidableEq

/-- The wait loop (deploy_agents_lab.sh lines 136–149) run over the exit
results of the background jobs, under the `set -e` from line 5: each branch
runs `((success_count++))` or `((failed_count++))`, and when that arithmetic
command fails `set -e` aborts the whole script with status 1 (modelled by
`Except.error 1`). -/
def waitLoop : WaitTally → List Bool → Except Nat WaitTally
  | t, [] => .ok t
  | t, jobOk :: rest =>
    if jobOk then
      if postIncrementStatusOk t.successCount then
        waitLoop { t with successCount := t.successCount + 1 } rest
      else .error 1
    else
      if postIncrementStatusOk t.failedCount then
        waitLoop { t with failedCount := t.failedCount + 1 } rest
      else .error 1

/-- Exit status of the script after the wait loop given the per-agent
results: an abort exits with the aborted status; otherwise lines 159–171
exit 1 when `failed_count > 0` and the script ends with status 0. -/
def deployScriptExitCode (results : List Bool) : Nat :=
  match waitLoop ⟨0, 0⟩ results with
  | .error code => code
  | .ok t => if t.failedCount > 0 then 1 else 0

/-- One result per agent of `AGENTS_TO_DEPLOY`, all six deployments
succeeding. -/
def allSixSucceed : List Bool := [true, true, true, true, true, true]

/-! ### `/run` request bodies (C4) -/

/-- The client operations that POST to a `/run` endpoint. -/
inductive RunOp where
  | query
  | queryWithImage
  | getForecast
  | getAlerts
  | getEvacuationRoute
  | analyzeRisk
  | findResources
  | geocode
  | analyzeHurricaneImage
  | getMapForZones
deriving Repr, DecidableEq

/-- The field names of the `/run` request body of each operation, in source
order (api.js lines 170–179, 260–277, 347–356, 406–415, 459–468, 514–523,
567–576, 608–613, 710–727, 773–782). `geocode` builds its body without a
`session_id`. -/
def runBodyFields : RunOp → List String
  | .query => ["app_name", "user_id", "session_id", "new_message", "streaming"]
  | .queryWithImage => ["app_name", "user_id", "session_id", "new_message", "streaming"]
  | .getForecast => ["app_name", "user_id", "session_id", "new_message", "streaming"]
  | .getAlerts => ["app_name", "user_id", "session_id", "new_message", "streaming"]
  | .getEvacuationRoute => ["app_name", "user_id", "session_id", "new_message", "streaming"]
  | .analyzeRisk => ["app_name", "user_id", "session_id", "new_message", "streaming"]
  | .findResources => ["app_name", "user_id", "session_id", "new_message", "streaming"]
  | .geocode => ["app_name", "user_id", "new_message", "streaming"]
  | .analyzeHurricaneImage => ["app_name", "user_id", "session_id", "new_message", "streaming"]
  | .getMapForZones => ["app_name", "user_id", "session_id", "new_message", "streaming"]

/-- The four fields the spec requires of every `/run` body. -/
def requiredRunFields : List String :=
  ["app_name", "user_id", "session_id", "new_message"]

/-- Whether the `/run` body of an operation carries all four required fields. -/
def carriesAllRequired (op : RunOp) : Bool :=
  requiredRunFields.all (fun f => (runBodyFields op).contains f)

/-! ### Error paths of `getAlerts`, `findResources`, `geocode` (C5) -/

/-- Observable outcome of an API operation: a thrown `Error` with its
message, or a normally returned value (`none` models a JS `null`). -/
inductive AgentCallResult where
  | thrown (msg : String)
  | value (v : Option JsValue)

/-- Optional-chain property access `o?.k`: `undefined` on `null`, missing
receivers and non-objects. -/
def optProp (o : Option JsValue) (k : String) : Option JsValue :=
  match o with
  | some (.obj fields) => lookupField fields k
  | _ => none

/-- Optional-chain indexing `o?.[i]`: array element, character of a string,
otherwise `undefined`. -/
def optIndex (o : Option JsValue) (i : Nat) : Option JsValue :=
  match o with
  | some (.arr elems) => elems.get? i
  | some (.str s) => (s.toList.get? i).map (fun c => .str (String.singleton c))
  | _ => none

/-- The chain `finalStep?.content?.parts?.[0]?.text` where `finalStep` is
`data[data.length - 1]` (api.js lines 425–426 and the analogous blocks). -/
def finalChainText (events : List JsValue) : Option JsValue :=
  optProp (optIndex (optProp (optProp (events.get? (events.length - 1))
    "content") "parts") 0) "text"

/-- A model of `JSON.parse`: an arbitrary parse function, failing with an
exception on invalid JSON. -/
def failingParse : String → Except Unit JsValue := fun _ => .error ()

/-- The shared parsing block (api.js lines 423–436 et al.): when the body
is a non-empty array whose final step has a truthy text, `JSON.parse` that
text; `none` when no such text exists. -/
def parseFinalSummary (data : JsValue)
    (parse : String → Except Unit JsValue) : Option (Except Unit JsValue) :=
  match data with
  | .arr events =>
    if events.length > 0 then
      match finalChainText events with
      | some tv => if truthy tv then some (parse (jsToString tv)) else none
      | none => none
    else none
  | _ => none

/-- Model of `getAlerts` (api.js lines 394–445) as a function of the `/run` outcome
and the JSON parser: HTTP failures are rethrown with a message; a parse
failure is logged and the still-`null` `alertsSummary` is returned. -/
def getAlertsResult (run : Except HttpError JsValue)
    (parse : String → Except Unit JsValue) : AgentCallResult :=
  match run with
  | .error e => .thrown (errorMessageOr e "Failed to get alerts")
  | .ok data =>
    match parseFinalSummary data parse with
    | some (.ok v) => .value (some v)
    | some (.error _) => .value none
    | none => .value none

/-- Model of `findResources` (api.js lines 556–603): same shape; its catch rethrows
with `Failed to find \x7bresourceType\x7d`, and the parse failure branch
explicitly returns `null`. -/
def findResourcesResult (resourceType : String)
    (run : Except HttpError JsValue)
    (parse : String → Except Unit JsValue) : AgentCallResult :=
  match run with
  | .error e => .thrown (errorMessageOr e ("Failed to find " ++ resourceType))
  | .ok data =>
    match parseFinalSummary data parse with
    | some (.ok v) => .value (some v)
    | some (.error _) => .value none
    | none => .value none

/-- Model of `geocode` (api.js lines 605–628): its catch block logs and returns
`null`, so an HTTP failure or a `JSON.parse` exception never surfaces to
the caller. -/
def geocodeResult (run : Except HttpError JsValue)
    (parse : String → Except Unit JsValue) : AgentCallResult :=
  match run with
  | .error _ => .value none
  | .ok data =>
    match parseFinalSummary data parse with
    | some (.ok v) => .value (some v)
    | some (.error _) => .value none
    | none => .value none

/-! ### Env-file append in `deploy_agent` (C6) -/

/-- The `<service-name>:<path>` pairs of `AGENTS_TO_DEPLOY`
(deploy_agents_lab.sh lines 18–25). -/
def agentsToDeploy : List (String × String) :=
  [("weather-alerts-snapshot-agent", "agents/alerts_snapshot_agent"),
   ("weather-emergency-resources-agent", "agents/emergency_resources_agent"),
   ("weather-forecast-agent", "agents/forecast_agent"),
   ("weather-risk-analysis-agent", "agents/risk_analysis_agent"),
   ("weather-hurricane-simulation-agent", "agents/hurricane_simulation_agent"),
   ("weather-chat-agent", "agents/chat")]

/-- Model of `tr '-' '_'` on one character. -/
def hyphenToUnderscore (c : Char) : Char := if c = '-' then '_' else c

/-- Model of `$(echo "$service_name" | tr '[:lower:]' '[:upper:]' | tr '-' '_')_URL`
(deploy_agents_lab.sh line 61): uppercase every letter, then replace
hyphens by underscores, then append `_URL`. -/
def envVarName (serviceName : String) : String :=
  mapChars hyphenToUnderscore (mapChars Char.toUpper serviceName) ++ "_URL"

/-- The line echoed into `frontend/.env.production`
(deploy_agents_lab.sh line 69). -/
def deployEnvLine (serviceName url : String) : String :=
  "REACT_APP_" ++ envVarName serviceName ++ "=" ++ url

/-- The append performed by one successful `deploy_agent` run: exactly one
new line at the end of the env file, `url` being whatever
`gcloud run services describe` reported. -/
def deployAppend (file : List String) (serviceName url : String) :
    List String :=
  file ++ [deployEnvLine serviceName url]

/-- Claim wording of the name transformation: uppercase every letter and
replace every hyphen with an underscore. -/
def claimServiceName (serviceName : String) : String :=
  mapChars (fun c => if c = '-' then '_' else Char.toUpper c) serviceName

/-! ### The mkdir lock of `deploy_agent` (C7) -/

/-- The lock directory used by one `deploy_agent` job
(deploy_agents_lab.sh line 64): its name embeds the own service name of the
name. -/
def lockDirName (serviceName : String) : String :=
  "/tmp/deploy_env_" ++ serviceName ++ ".lock"

/-- Model of `mkdir`-based acquisition: succeeds exactly when no directory of that
name exists, atomically creating it. -/
def tryAcquire (held : List String) (l : String) : Option (List String) :=
  if held.contains l then none else some (l :: held)

/-- Where a `deploy_agent` job stands relative to its critical section
(the append to `frontend/.env.production` between `mkdir` and `rmdir`,
deploy_agents_lab.sh lines 65–70). -/
inductive JobPhase where
  | beforeLock
  | inCritical
  | donePhase
deriving Repr, DecidableEq

/-- One deploy job about to store its URL line. -/
structure DeployJob where
  service : String
  url : String
  phase : JobPhase
deriving Repr, DecidableEq

/-- Shared state of the concurrent deployment: existing lock directories
and the lines of `frontend/.env.production`. -/
structure DeployWorld where
  held : List String
  file : List String
deriving Repr, DecidableEq

/-- One scheduler step of a job: acquire its lock (spinning means the step
is unavailable while the directory exists), or append its line and release.
-/
def stepJob (w : DeployWorld) (j : DeployJob) :
    Option (DeployWorld × DeployJob) :=
  match j.phase with
  | .beforeLock =>
    match tryAcquire w.held (lockDirName j.service) with
    | some held2 => some ({ w with held := held2 }, { j with phase := .inCritical })
    | none => none
  | .inCritical =>
    some ({ held := w.held.erase (lockDirName j.service)
            file := w.file ++ [deployEnvLine j.service j.url] },
          { j with phase := .donePhase })
  | .donePhase => none

/-- The chat-agent job of the parallel deployment run. -/
def chatJob : DeployJob :=
  { service := "weather-chat-agent", url := "https://chat.example.run.app"
    phase := .beforeLock }

/-- The forecast-agent job of the parallel deployment run. -/
def forecastJob : DeployJob :=
  { service := "weather-forecast-agent"
    url := "https://forecast.example.run.app", phase := .beforeLock }

/-! ### The `TourProvider` state machine (C8) -/

/-- One entry of `tourSteps`. The `title` and `description` display strings
play no role in the state machine and are omitted; `id`, `page`,
`highlight` and `position` are kept verbatim. -/
structure TourStep where
  id : String
  page : String
  highlight : Option String
  position : String
deriving Repr, DecidableEq

/-- The twelve steps of the guided tour (TourProvider source, lines
20–117). -/
def tourSteps : List TourStep :=
  [{ id := "welcome", page := "/", highlight := none, position := "center" },
   { id := "demo-mode", page := "/", highlight := some "demo-toggle", position := "bottom" },
   { id := "dashboard-alerts-scroll", page := "/", highlight := some "alerts-section", position := "top" },
   { id := "risk-analysis-button", page := "/", highlight := some "alerts-section", position := "top" },
   { id := "risk-analysis-modal", page := "/", highlight := some "alerts-section", position := "top" },
   { id := "show-map-button", page := "/", highlight := some "alerts-section", position := "top" },
   { id := "dashboard-map", page := "/", highlight := some "dashboard-map", position := "top" },
   { id := "emergency-resources", page := "/emergency-resources", highlight := some "resources-section", position := "top" },
   { id := "chat-page", page := "/chat", highlight := some "chat-interface", position := "top" },
   { id := "forecast-page", page := "/forecast", highlight := some "forecast-section", position := "top" },
   { id := "hurricane-simulation", page := "/hurricane-simulation", highlight := some "simulation-section", position := "top" },
   { id := "complete", page := "/hurricane-simulation", highlight := none, position := "center" }]

/-- The provider state: the three `useState` values plus the persisted
`tourCompleted` localStorage entry. -/
structure TourState where
  isTourActive : Bool
  currentStep : Nat
  hasCompletedTour : Bool
  storedTourCompleted : Option String
deriving Repr, DecidableEq

/-- Initial state: `currentStep` starts at 0 and `hasCompletedTour` reads
the check of `localStorage.getItem` for `tourCompleted` being `true`. -/
def initialTourState (stored : Option String) : TourState :=
  { isTourActive := false, currentStep := 0
    hasCompletedTour := stored == some "true"
    storedTourCompleted := stored }

/-- Model of `startTour`. -/
def startTour (s : TourState) : TourState :=
  { s with isTourActive := true, currentStep := 0 }

/-- Model of `completeTour`: deactivates, resets the step, and persists the
completion flag. -/
def completeTour (s : TourState) : TourState :=
  { s with isTourActive := false, currentStep := 0
           hasCompletedTour := true, storedTourCompleted := some "true" }

/-- Model of `nextStep`: advance below the last step, complete the tour at the last
step. -/
def nextStep (s : TourState) : TourState :=
  if s.currentStep < tourSteps.length - 1 then
    { s with currentStep := s.currentStep + 1 }
  else completeTour s

/-- Model of `previousStep`: step back only when above 0. -/
def previousStep (s : TourState) : TourState :=
  if s.currentStep > 0 then { s with currentStep := s.currentStep - 1 } else s

/-- Model of `skipTour`. -/
def skipTour (s : TourState) : TourState :=
  { s with isTourActive := false, currentStep := 0 }

/-- Model of `resetTour`: forgets completion and removes the localStorage flag. -/
def resetTour (s : TourState) : TourState :=
  { s with hasCompletedTour := false, storedTourCompleted := none }

/-- Model of `getCurrentStep`: `tourSteps[currentStep]`, `undefined` out of range. -/
def getCurrentStep (s : TourState) : Option TourStep :=
  tourSteps.get? s.currentStep

/-- The operations a consumer of the context can invoke. -/
inductive TourOp where
  | start
  | next
  | prev
  | skipOp
  | completeOp
  | reset
deriving Repr, DecidableEq

/-- Apply one operation. -/
def applyTourOp (s : TourState) : TourOp → TourState
  | .start => startTour s
  | .next => nextStep s
  | .prev => previousStep s
  | .skipOp => skipTour s
  | .completeOp => completeTour s
  | .reset => resetTour s

/-- Run a sequence of operations from the initial state. -/
def runTour (stored : Option String) (ops : List TourOp) : TourState :=
  ops.foldl applyTourOp (initialTourState stored)

/-! ### `isSessionValid` (C9) -/

/-- Model of `SESSION_STORAGE_KEY` (api.js line 14). -/
def sessionIdKey : String := "weather_agent_session_id"

/-- Model of `SESSION_TIMESTAMP_KEY` (api.js line 15). -/
def sessionTimestampKey : String := "weather_agent_session_timestamp"

/-- Model of `SESSION_TIMEOUT = 30 * 60 * 1000` milliseconds (api.js line 16). -/
def sessionTimeout : Int := 30 * 60 * 1000

/-- Model of `localStorage.getItem`: first stored value of the key, `null`
(`none`) when absent. -/
def getItem : List (String × String) → String → Option String
  | [], _ => none
  | (k, v) :: rest, key => if k = key then some v else getItem rest key

/-- The whitespace characters skipped by `parseInt`. -/
def isJsSpace (c : Char) : Bool :=
  c == ' ' || c == '\t' || c == '\n' || c == '\r'

/-- Numeric value of a digit run. -/
def digitsToNat (ds : List Char) : Nat :=
  ds.foldl (fun a c => a * 10 + (c.toNat - 48)) 0

/-- Value of the leading decimal-digit run, `none` when there is none. -/
def leadingDigitsVal (cs : List Char) : Option Nat :=
  let ds := cs.takeWhile Char.isDigit
  if ds.isEmpty then none else some (digitsToNat ds)

/-- Model of `parseInt(s, 10)`: skip whitespace, optional sign, then the leading
decimal digits; `none` models `NaN`. -/
def parseIntJs (s : String) : Option Int :=
  match s.toList.dropWhile isJsSpace with
  | '-' :: rest => (leadingDigitsVal rest).map (fun n => -(n : Int))
  | '+' :: rest => (leadingDigitsVal rest).map (fun n => (n : Int))
  | rest => (leadingDigitsVal rest).map (fun n => (n : Int))

/-- Model of `isSessionValid` (api.js lines 77–94) at time `now`: `!sessionId ||
!timestamp` rejects absent and empty values; then `now - parseInt(timestamp,
10) > SESSION_TIMEOUT` expires the session, and since every comparison with
`NaN` is false a non-numeric timestamp falls through to `return true`. -/
def isSessionValid (localStore : List (String × String)) (now : Int) : Bool :=
  match getItem localStore sessionIdKey,
        getItem localStore sessionTimestampKey with
  | some sid, some ts =>
    if sid = "" || ts = "" then false
    else
      match parseIntJs ts with
      | some n => if now - n > sessionTimeout then false else true
      | none => true
  | _, _ => false

/-- The reading of the claim: `false` only when a key is absent or the parsed
timestamp is more than 30 minutes before `now`; `true` in every other case,
a non-numeric timestamp included. -/
def claimSessionValid (localStore : List (String × String)) (now : Int) :
    Bool :=
  match getItem localStore sessionIdKey,
        getItem localStore sessionTimestampKey with
  | some _, some ts =>
    match parseIntJs ts with
    | some n => if now - n > sessionTimeout then false else true
    | none => true
  | _, _ => false

/-! ### `getSuggestedActions` (C10) -/

/-- The case-insensitive line starters rejected by the filter regex
`/^(here|based|example|format)/i` (api.js line 669). -/
def rejectedStarts : List String := ["here", "based", "example", "format"]

/-- ASCII lowering, modelling the `i` regex flag. -/
def lowerAscii (s : String) : String := mapChars Char.toLower s

/-- Whether a line matches `/^(here|based|example|format)/i`. -/
def suggestionRejected (line : String) : Bool :=
  rejectedStarts.any (fun p => beginsWith (lowerAscii line) p)

/-- The suggestion pipeline (api.js lines 666–670): split on newlines,
trim, keep non-empty lines not matching the regex, take the first 4. -/
def suggestionsOfContent (content : String) : List String :=
  ((((splitLines content).map trimJs).filter
    (fun l => decide (0 < l.length) && !(suggestionRejected l))).take 4)

/-- Model of `getSuggestedActions` as a function of the underlying `query` outcome:
a thrown query is caught and yields `[]`; a falsy (empty) `content` yields
`[]`; otherwise the pipeline runs (api.js lines 656–681). -/
def getSuggestedActions : Except String String → List String
  | .error _ => []
  | .ok content => if content = "" then [] else suggestionsOfContent content

theorem appendPartTexts_wf (parts : List JsValue) : ∀ acc : String,
    parts.all wfPart = true →
    appendPartTexts acc parts =
      .ok (acc ++ concatAll (parts.map claimPartText)) := by
  induction parts with
  | nil => intro acc _; simp [appendPartTexts, concatAll]
  | cons part rest ih =>
    intro acc h
    simp only [List.all_cons, Bool.and_eq_true] at h
    obtain ⟨hp, hrest⟩ := h
    cases part with
    | null => simp [wfPart] at hp
    | obj fields =>
      cases hl : lookupField fields "text" with
      | none =>
        simp [appendPartTexts, Bind.bind, Except.bind, getProp, hl, ih _ hrest, claimPartText,
          concatAll, String.empty_append]
      | some tv =>
        cases tv with
        | str s =>
          by_cases hs : s = ""
          · subst hs
            simp [appendPartTexts, Bind.bind, Except.bind, getProp, hl, truthy, ih _ hrest,
              claimPartText, concatAll, String.empty_append]
          · simp [appendPartTexts, Bind.bind, Except.bind, getProp, hl, truthy, hs, jsToString,
              ih _ hrest, claimPartText, concatAll, String.append_assoc]
        | null => simp [wfPart, hl] at hp
        | bool b => simp [wfPart, hl] at hp
        | num n => simp [wfPart, hl] at hp
        | arr a => simp [wfPart, hl] at hp
        | obj o => simp [wfPart, hl] at hp
    | bool b =>
      simp [appendPartTexts, Bind.bind, Except.bind, getProp, ih _ hrest, claimPartText, concatAll,
        String.empty_append]
    | num n =>
      simp [appendPartTexts, Bind.bind, Except.bind, getProp, ih _ hrest, claimPartText, concatAll,
        String.empty_append]
    | str s =>
      simp [appendPartTexts, Bind.bind, Except.bind, getProp, ih _ hrest, claimPartText, concatAll,
        String.empty_append]
    | arr a =>
      simp [appendPartTexts, Bind.bind, Except.bind, getProp, ih _ hrest, claimPartText, concatAll,
        String.empty_append]

theorem claimParts_of_contentPartsExpr (e : JsValue) (p : Option JsValue)
    (h : contentPartsExpr e = .ok p) : claimParts e = partsView p := by
  cases e with
  | null => simp [contentPartsExpr, Bind.bind, Except.bind, getProp] at h
  | obj fields =>
    cases hc : lookupField fields "content" with
    | none =>
      simp [contentPartsExpr, Bind.bind, Except.bind, Pure.pure, Except.pure,
        getProp, hc] at h
      subst h; simp [claimParts, hc, partsView]
    | some cv =>
      cases cv with
      | null =>
        simp [contentPartsExpr, Bind.bind, Except.bind, Pure.pure,
          Except.pure, getProp, hc] at h
        subst h; simp [claimParts, hc, partsView]
      | obj cf =>
        simp [contentPartsExpr, Bind.bind, Except.bind, Pure.pure,
          Except.pure, getProp, hc] at h
        subst h
        cases hps : lookupField cf "parts" with
        | none => simp [claimParts, hc, hps, partsView]
        | some pv => cases pv <;> simp [claimParts, hc, hps, partsView]
      | bool b =>
        simp [contentPartsExpr, Bind.bind, Except.bind, Pure.pure,
          Except.pure, getProp, hc] at h
        subst h; simp [claimParts, hc, partsView]
      | num n =>
        simp [contentPartsExpr, Bind.bind, Except.bind, Pure.pure,
          Except.pure, getProp, hc] at h
        subst h; simp [claimParts, hc, partsView]
      | str s =>
        simp [contentPartsExpr, Bind.bind, Except.bind, Pure.pure,
          Except.pure, getProp, hc] at h
        subst h; simp [claimParts, hc, partsView]
      | arr a =>
        simp [contentPartsExpr, Bind.bind, Except.bind, Pure.pure,
          Except.pure, getProp, hc] at h
        subst h; simp [claimParts, hc, partsView]
  | bool b =>
    simp [contentPartsExpr, Bind.bind, Except.bind, Pure.pure, Except.pure,
      getProp] at h
    subst h; simp [claimParts, partsView]
  | num n =>
    simp [contentPartsExpr, Bind.bind, Except.bind, Pure.pure, Except.pure,
      getProp] at h
    subst h; simp [claimParts, partsView]
  | str s =>
    simp [contentPartsExpr, Bind.bind, Except.bind, Pure.pure, Except.pure,
      getProp] at h
    subst h; simp [claimParts, partsView]
  | arr a =>
    simp [contentPartsExpr, Bind.bind, Except.bind, Pure.pure, Except.pure,
      getProp] at h
    subst h; simp [claimParts, partsView]

theorem processEvent_wf (e : JsValue) (acc : String)
    (h : (match contentPartsExpr e with
          | .ok p => wfPartsVal p
          | .error _ => false) = true) :
    processEvent acc e = .ok (acc ++ claimEventText e) := by
  cases hcp : contentPartsExpr e with
  | error u => rw [hcp] at h; simp at h
  | ok p =>
    rw [hcp] at h
    have hparts := claimParts_of_contentPartsExpr e p hcp
    cases p with
    | none =>
      simp [processEvent, Bind.bind, Except.bind, hcp, claimEventText,
        hparts, partsView, concatAll, String.append_empty]
    | some pv =>
      by_cases ht : truthy pv = true
      · cases pv with
        | arr ps =>
          have hall : ps.all wfPart = true := by
            simpa [wfPartsVal, truthy] using h
          simp [processEvent, Bind.bind, Except.bind, hcp, ht, iterateJs,
            claimEventText, hparts, partsView,
            appendPartTexts_wf ps acc hall]
        | null => simp [truthy] at ht
        | bool b => simp [wfPartsVal, ht] at h
        | num n => simp [wfPartsVal, ht] at h
        | str s => simp [wfPartsVal, ht] at h
        | obj o => simp [wfPartsVal, ht] at h
      · have hb : truthy pv = false := by
          cases hx : truthy pv
          · rfl
          · exact absurd hx ht
        cases pv with
        | arr ps => simp [truthy] at hb
        | null =>
          simp [processEvent, Bind.bind, Except.bind, hcp, truthy,
            claimEventText, hparts, partsView, concatAll,
            String.append_empty]
        | bool b =>
          simp [processEvent, Bind.bind, Except.bind, hcp, hb,
            claimEventText, hparts, partsView, concatAll,
            String.append_empty]
        | num n =>
          simp [processEvent, Bind.bind, Except.bind, hcp, hb,
            claimEventText, hparts, partsView, concatAll,
            String.append_empty]
        | str s =>
          simp [processEvent, Bind.bind, Except.bind, hcp, hb,
            claimEventText, hparts, partsView, concatAll,
            String.append_empty]
        | obj o => simp [truthy] at hb

theorem wfEvent_elim (e : JsValue) (h : wfEvent e = true) :
    (match contentPartsExpr e with
     | .ok p => wfPartsVal p
     | .error _ => false) = true := by
  cases e with
  | obj fields => simpa [wfEvent] using h
  | null => simp [wfEvent] at h
  | bool b => simp [wfEvent] at h
  | num n => simp [wfEvent] at h
  | str s => simp [wfEvent] at h
  | arr a => simp [wfEvent] at h

theorem foldEvents_wf (events : List JsValue) : ∀ acc : String,
    events.all wfEvent = true →
    foldEvents acc events =
      .ok (acc ++ concatAll (events.map claimEventText)) := by
  induction events with
  | nil => intro acc _; simp [foldEvents, concatAll]
  | cons e rest ih =>
    intro acc h
    simp only [List.all_cons, Bool.and_eq_true] at h
    obtain ⟨he, hrest⟩ := h
    simp [foldEvents, Bind.bind, Except.bind,
      processEvent_wf e acc (wfEvent_elim e he), ih _ hrest, concatAll,
      String.append_assoc]

/-- C1, as stated, is false on the body `null`: `Array.isArray(null)` is
false and `null.content` throws a TypeError, so `query` rethrows instead of
returning the empty content the otherwise-branch of the claim demands. -/
theorem extract_null_throws :
    extractResponseText JsValue.null ≠ .ok (claimResponseText JsValue.null) := by
  intro h
  exact Except.noConfusion h

/-- C1 (amended): on every well-shaped `/run` response body — an array of
event objects, a non-null object, or a primitive non-null body — the
extracted content equals the claimed in-order concatenation of the
non-empty part texts; a `null` body instead makes the extraction throw. -/
theorem extract_matches_claim (data : JsValue) (h : wfResponse data = true) :
    extractResponseText data = .ok (claimResponseText data) := by
  cases data with
  | arr events =>
    have : events.all wfEvent = true := by simpa [wfResponse] using h
    simp [extractResponseText, claimResponseText, foldEvents_wf events "" this,
      String.empty_append]
  | null => simp [wfResponse] at h
  | obj fields =>
    have h2 : (match contentPartsExpr (JsValue.obj fields) with
               | .ok p => wfPartsVal p
               | .error _ => false) = true := by
      simpa [wfResponse] using h
    simp [extractResponseText, claimResponseText,
      processEvent_wf (JsValue.obj fields) "" h2, String.empty_append]
  | bool b =>
    have h2 : (match contentPartsExpr (JsValue.bool b) with
               | .ok p => wfPartsVal p
               | .error _ => false) = true := by
      simp [contentPartsExpr, Bind.bind, Except.bind, Pure.pure, Except.pure,
        getProp, wfPartsVal]
    simp [extractResponseText, claimResponseText,
      processEvent_wf (JsValue.bool b) "" h2, String.empty_append]
  | num n =>
    have h2 : (match contentPartsExpr (JsValue.num n) with
               | .ok p => wfPartsVal p
               | .error _ => false) = true := by
      simp [contentPartsExpr, Bind.bind, Except.bind, Pure.pure, Except.pure,
        getProp, wfPartsVal]
    simp [extractResponseText, claimResponseText,
      processEvent_wf (JsValue.num n) "" h2, String.empty_append]
  | str s =>
    have h2 : (match contentPartsExpr (JsValue.str s) with
               | .ok p => wfPartsVal p
               | .error _ => false) = true := by
      simp [contentPartsExpr, Bind.bind, Except.bind, Pure.pure, Except.pure,
        getProp, wfPartsVal]
    simp [extractResponseText, claimResponseText,
      processEvent_wf (JsValue.str s) "" h2, String.empty_append]

/-- Witness for the amended C1 at a concrete two-event body. -/
theorem extract_matches_claim_witness :
    wfResponse (.arr [.obj [("content", .obj [("parts",
        .arr [.obj [("text", .str "hello ")], .obj [("text", .str "world")]])])],
      .obj []]) = true
    ∧ extractResponseText (.arr [.obj [("content", .obj [("parts",
        .arr [.obj [("text", .str "hello ")], .obj [("text", .str "world")]])])],
      .obj []]) = .ok "hello world" := by
  refine ⟨by decide, ?_⟩
  rw [extract_matches_claim _ (by decide)]
  rfl

/-- C2, as stated, is false: a 404 does trigger `clearBrowserState`, but
that function only removes the keys with the six tracked key groups — the
`tourCompleted` localStorage entry survives the reset. -/
theorem clear_keeps_tourCompleted :
    isSessionInvalidStatus ⟨some 404, none, "Request failed with status code 404"⟩ = true
    ∧ (queryCatch ⟨some 404, none, "Request failed with status code 404"⟩
        ⟨[("tourCompleted", "true"), ("dashboardAlerts", "[]")], [("x", "y")]⟩).1
      = ⟨[("tourCompleted", "true")], []⟩ := by
  constructor
  · decide
  · decide

/-- C2 (amended): on a 401 or 404 both `query` and `queryWithImage` clear
all of sessionStorage and remove exactly the localStorage keys starting
with `dashboard`, `weather_agent`, `chat`, `forecast`, `risk` or
`emergency`, keeping every other key, before rethrowing. -/
theorem session_invalid_clears_state (e : HttpError) (st : BrowserState)
    (h : isSessionInvalidStatus e = true) :
    ((queryCatch e st).1.sessionStore = []
      ∧ ∀ kv, kv ∈ (queryCatch e st).1.localStore ↔
          kv ∈ st.localStore ∧ keyIsCleared kv.1 = false)
    ∧ ((queryWithImageCatch e st).1.sessionStore = []
      ∧ ∀ kv, kv ∈ (queryWithImageCatch e st).1.localStore ↔
          kv ∈ st.localStore ∧ keyIsCleared kv.1 = false) := by
  constructor
  · constructor
    · simp [queryCatch, h, clearBrowserState]
    · intro kv
      simp [queryCatch, h, clearBrowserState, List.mem_filter]
  · constructor
    · simp [queryWithImageCatch, h, clearBrowserState]
    · intro kv
      simp [queryWithImageCatch, h, clearBrowserState, List.mem_filter]

/-- Witness for the amended C2 at a concrete 404 and store. -/
theorem session_invalid_clears_state_witness :
    (queryCatch ⟨some 404, none, "Request failed"⟩
      ⟨[("tourCompleted", "true"), ("weather_agent_session_id", "s")], [("a", "b")]⟩).1.sessionStore
      = [] :=
  (session_invalid_clears_state ⟨some 404, none, "Request failed"⟩
    ⟨[("tourCompleted", "true"), ("weather_agent_session_id", "s")], [("a", "b")]⟩
    (by decide)).1.1

/-- C3 is a bug in the script: with `set -e` active, the first
`((success_count++))` evaluates a post-increment of 0, the arithmetic
command fails, and the whole script aborts with status 1 — so even a run in
which all six agents deploy successfully exits 1, and the claimed
success/failure tally is never produced. -/
theorem deploy_all_success_exits_one :
    deployScriptExitCode allSixSucceed = 1 := by decide

/-- C4, as stated, is false: the `/run` body built by `geocode` has no
`session_id` field. -/
theorem geocode_missing_session_id :
    carriesAllRequired RunOp.geocode = false := by decide

/-- C4 (amended): every operation that posts to `/run` except `geocode`
carries all four required fields; `geocode` sends `app_name`, `user_id` and
`new_message` but omits `session_id`. -/
theorem run_bodies_carry_fields :
    (∀ op : RunOp, op ≠ RunOp.geocode → carriesAllRequired op = true)
    ∧ (runBodyFields RunOp.geocode).contains "session_id" = false
    ∧ (["app_name", "user_id", "new_message"].all
        (fun f => (runBodyFields RunOp.geocode).contains f)) = true := by
  refine ⟨?_, by decide, by decide⟩
  intro op h
  cases op
  case geocode => exact absurd rfl h
  all_goals decide

/-- Witness for the amended C4 at the chat `query` operation. -/
theorem run_bodies_carry_fields_witness :
    carriesAllRequired RunOp.query = true :=
  run_bodies_carry_fields.1 RunOp.query (by decide)

theorem parseFinalSummary_failingParse (data : JsValue) :
    parseFinalSummary data failingParse = none
    ∨ parseFinalSummary data failingParse = some (.error ()) := by
  cases data with
  | arr events =>
    by_cases hl : events.length > 0
    · cases hc : finalChainText events with
      | none => left; simp [parseFinalSummary, hl, hc]
      | some tv =>
        by_cases ht : truthy tv = true
        · right; simp [parseFinalSummary, hl, hc, ht, failingParse]
        · left
          simp only [Bool.not_eq_true] at ht
          simp [parseFinalSummary, hl, hc, ht]
    · left; simp [parseFinalSummary, hl]
  | null => left; rfl
  | bool b => left; rfl
  | num n => left; rfl
  | str s => left; rfl
  | obj fields => left; rfl

/-- C5, as stated, is false: an HTTP failure of the `geocode` operation is
swallowed — the catch block logs it and returns `null` to the caller
instead of throwing. -/
theorem geocode_swallows_http_error :
    geocodeResult (.error ⟨none, none, "Network Error"⟩)
      (fun t => .ok (.str t)) = .value none := rfl

/-- C5 (amended): `getAlerts` and `findResources` rethrow HTTP failures as
`Error`s carrying a message, while `geocode` returns `null`; a `JSON.parse`
failure of the agent payload never throws in any of the three — the
operation returns `null` instead. -/
theorem http_and_parse_failure_surfacing :
    (∀ (e : HttpError) (parse : String → Except Unit JsValue),
      getAlertsResult (.error e) parse =
        .thrown (errorMessageOr e "Failed to get alerts"))
    ∧ (∀ (rt : String) (e : HttpError) (parse : String → Except Unit JsValue),
      findResourcesResult rt (.error e) parse =
        .thrown (errorMessageOr e ("Failed to find " ++ rt)))
    ∧ (∀ (e : HttpError) (parse : String → Except Unit JsValue),
      geocodeResult (.error e) parse = .value none)
    ∧ (∀ data : JsValue, getAlertsResult (.ok data) failingParse = .value none)
    ∧ (∀ (rt : String) (data : JsValue),
      findResourcesResult rt (.ok data) failingParse = .value none)
    ∧ (∀ data : JsValue, geocodeResult (.ok data) failingParse = .value none) := by
  refine ⟨fun e parse => rfl, fun rt e parse => rfl, fun e parse => rfl,
    ?_, ?_, ?_⟩
  · intro data
    rcases parseFinalSummary_failingParse data with h | h <;>
      simp [getAlertsResult, h]
  · intro rt data
    rcases parseFinalSummary_failingParse data with h | h <;>
      simp [findResourcesResult, h]
  · intro data
    rcases parseFinalSummary_failingParse data with h | h <;>
      simp [geocodeResult, h]

/-- Witness for the amended C5: a concrete HTTP failure of `getAlerts`. -/
theorem http_and_parse_failure_surfacing_witness :
    getAlertsResult (.error ⟨none, none, "Network Error"⟩) failingParse =
      .thrown (errorMessageOr ⟨none, none, "Network Error"⟩
        "Failed to get alerts") :=
  http_and_parse_failure_surfacing.1 ⟨none, none, "Network Error"⟩ failingParse

/-- C6: for every service of `AGENTS_TO_DEPLOY`, a successful deployment
appends exactly one line `REACT_APP_<NAME>_URL=<url>`, `<NAME>` being the
service name with every letter uppercased and every hyphen replaced by an
underscore, and `<url>` whatever `gcloud run services describe`
reported. -/
theorem deploy_appends_env_line (p : String × String)
    (hp : p ∈ agentsToDeploy) (file : List String) (url : String) :
    deployAppend file p.1 url =
      file ++ ["REACT_APP_" ++ claimServiceName p.1 ++ ("_URL=" ++ url)] := by
  have hname : ∀ q ∈ agentsToDeploy,
      envVarName q.1 = claimServiceName q.1 ++ "_URL" := by decide
  show file ++ [deployEnvLine p.1 url] = _
  rw [show deployEnvLine p.1 url =
      "REACT_APP_" ++ envVarName p.1 ++ "=" ++ url from rfl, hname p hp]
  simp only [String.append_assoc]
  rw [← String.append_assoc "_URL" "=" url,
    show ("_URL" ++ "=" : String) = "_URL=" from rfl]

/-- Witness for C6 at the chat agent. -/
theorem deploy_appends_env_line_witness :
    deployAppend [] "weather-chat-agent" "https://chat.example.run.app" =
      ["REACT_APP_" ++ claimServiceName "weather-chat-agent" ++
        ("_URL=" ++ "https://chat.example.run.app")] :=
  deploy_appends_env_line ("weather-chat-agent", "agents/chat") (by decide)
    [] "https://chat.example.run.app"

/-- C7 is a bug in the script: the lock directory name embeds the own
service name of each job, so two concurrently running `deploy_agent` jobs use distinct
locks; from the shared initial state the second job acquires its lock while
the first already holds its — both stand in the critical section around the
`frontend/.env.production` append at once, so the appends are not mutually
excluded. -/
theorem deploy_lock_not_mutually_exclusive :
    lockDirName "weather-chat-agent" ≠ lockDirName "weather-forecast-agent"
    ∧ stepJob ⟨[], []⟩ chatJob =
        some (⟨[lockDirName "weather-chat-agent"], []⟩,
          { chatJob with phase := .inCritical })
    ∧ stepJob ⟨[lockDirName "weather-chat-agent"], []⟩ forecastJob =
        some (⟨[lockDirName "weather-forecast-agent",
                lockDirName "weather-chat-agent"], []⟩,
          { forecastJob with phase := .inCritical }) := by
  refine ⟨by decide, by decide, by decide⟩

theorem applyTourOp_bounds (s : TourState) (op : TourOp)
    (h : s.currentStep < tourSteps.length) :
    (applyTourOp s op).currentStep < tourSteps.length := by
  have hlen : tourSteps.length = 12 := rfl
  rw [hlen] at h ⊢
  cases op with
  | start => show 0 < 12; omega
  | next =>
    show (nextStep s).currentStep < 12
    rw [nextStep]
    split
    · next hc => show s.currentStep + 1 < 12; rw [hlen] at hc; omega
    · show 0 < 12; omega
  | prev =>
    show (previousStep s).currentStep < 12
    rw [previousStep]
    split
    · show s.currentStep - 1 < 12; omega
    · exact h
  | skipOp => show 0 < 12; omega
  | completeOp => show 0 < 12; omega
  | reset => exact h

theorem foldl_tour_bounds (ops : List TourOp) : ∀ s : TourState,
    s.currentStep < tourSteps.length →
    (ops.foldl applyTourOp s).currentStep < tourSteps.length := by
  induction ops with
  | nil => intro s h; simpa using h
  | cons op rest ih =>
    intro s h
    simpa using ih (applyTourOp s op) (applyTourOp_bounds s op h)

/-- C8: from the initial state, every sequence of tour operations keeps
`currentStep` within `[0, tourSteps.length - 1]` and `getCurrentStep`
defined; `previousStep` at step 0 leaves the state unchanged; and
`nextStep` at the last step deactivates the tour, resets the step to 0,
and persists the completion flag. -/
theorem tour_state_machine_safe :
    (∀ (stored : Option String) (ops : List TourOp),
      (runTour stored ops).currentStep < tourSteps.length
      ∧ (getCurrentStep (runTour stored ops)).isSome = true)
    ∧ (∀ s : TourState, s.currentStep = 0 → previousStep s = s)
    ∧ (∀ s : TourState, s.currentStep = tourSteps.length - 1 →
        nextStep s = { s with isTourActive := false, currentStep := 0,
                              hasCompletedTour := true,
                              storedTourCompleted := some "true" }) := by
  refine ⟨?_, ?_, ?_⟩
  · intro stored ops
    have hb : (runTour stored ops).currentStep < tourSteps.length :=
      foldl_tour_bounds ops (initialTourState stored) (by show (0:Nat) < 12; omega)
    refine ⟨hb, ?_⟩
    rw [getCurrentStep, List.get?_eq_get hb]
    rfl
  · intro s h
    simp [previousStep, h]
  · intro s h
    have hn : ¬ s.currentStep < tourSteps.length - 1 := by
      rw [h]; decide
    simp [nextStep, hn, completeTour]

/-- Witness for C8: a run of the tour, a step-0 state, and a state at the
final step. -/
theorem tour_state_machine_safe_witness :
    (runTour none [TourOp.start, TourOp.next]).currentStep < tourSteps.length
    ∧ previousStep (initialTourState none) = initialTourState none
    ∧ nextStep ⟨true, 11, false, none⟩ = ⟨false, 0, true, some "true"⟩ :=
  ⟨(tour_state_machine_safe.1 none [TourOp.start, TourOp.next]).1,
   tour_state_machine_safe.2.1 (initialTourState none) rfl,
   tour_state_machine_safe.2.2 ⟨true, 11, false, none⟩ rfl⟩

/-- C9, as stated, is false: a present-but-empty session id (and likewise
an empty timestamp) is falsy in JavaScript, so `!sessionId || !timestamp`
returns false although the claimed conditions for `false` do not hold. -/
theorem session_empty_value_differs :
    isSessionValid [(sessionIdKey, ""), (sessionTimestampKey, "1000")] 1000
      ≠ claimSessionValid [(sessionIdKey, ""), (sessionTimestampKey, "1000")]
        1000 := by decide

/-- C9 (amended): `isSessionValid` returns true exactly when both keys are
present with non-empty values and the timestamp, when it parses at all,
is at most 30 minutes before `now`; a non-empty non-numeric timestamp
(`parseInt` yields `NaN`) never expires the session. -/
theorem session_validity_characterization
    (ls : List (String × String)) (now : Int) :
    isSessionValid ls now = true ↔
      (∃ sid, getItem ls sessionIdKey = some sid ∧ sid ≠ "")
      ∧ (∃ ts, getItem ls sessionTimestampKey = some ts ∧ ts ≠ ""
          ∧ ∀ n, parseIntJs ts = some n → now - n ≤ sessionTimeout) := by
  cases h1 : getItem ls sessionIdKey with
  | none => simp [isSessionValid, h1]
  | some sid =>
    cases h2 : getItem ls sessionTimestampKey with
    | none => simp [isSessionValid, h1, h2]
    | some ts =>
      by_cases hs1 : sid = ""
      · simp [isSessionValid, h1, h2, hs1]
      · by_cases hs2 : ts = ""
        · simp [isSessionValid, h1, h2, hs1, hs2]
        · cases hp : parseIntJs ts with
          | none => simp [isSessionValid, h1, h2, hs1, hs2, hp]
          | some n =>
            by_cases hlt : now - n > sessionTimeout
            · simp [isSessionValid, h1, h2, hs1, hs2, hp, hlt]
              omega
            · simp [isSessionValid, h1, h2, hs1, hs2, hp, hlt]
              omega

/-- Witness for the amended C9: a fresh session at a concrete time. -/
theorem session_validity_characterization_witness :
    isSessionValid [(sessionIdKey, "session_1_abc"),
      (sessionTimestampKey, "1000")] 2000 = true :=
  (session_validity_characterization
    [(sessionIdKey, "session_1_abc"), (sessionTimestampKey, "1000")]
    2000).mpr
    ⟨⟨"session_1_abc", rfl, by decide⟩,
     ⟨"1000", rfl, by decide, fun n hn => by
        injection hn with h
        subst h
        decide⟩⟩

/-- C10: `getSuggestedActions` returns at most 4 suggestions; each is a
non-empty trimmed line of the chat content that does not start
(case-insensitively) with `here`, `based`, `example` or `format`; a thrown
query or an empty content yields `[]`. -/
theorem suggested_actions_properties :
    (∀ r : Except String String, (getSuggestedActions r).length ≤ 4)
    ∧ (∀ (c s : String), s ∈ getSuggestedActions (.ok c) →
        0 < s.length ∧ suggestionRejected s = false
        ∧ s ∈ (splitLines c).map trimJs)
    ∧ (∀ e : String, getSuggestedActions (.error e) = [])
    ∧ getSuggestedActions (.ok "") = [] := by
  refine ⟨?_, ?_, fun e => rfl, rfl⟩
  · intro r
    cases r with
    | error e => simp [getSuggestedActions]
    | ok c =>
      by_cases hc : c = ""
      · simp [getSuggestedActions, hc]
      · calc (getSuggestedActions (.ok c)).length
            = (suggestionsOfContent c).length := by
              simp [getSuggestedActions, hc]
          _ ≤ 4 := by
              rw [suggestionsOfContent, List.length_take]
              exact min_le_left _ _
  · intro c s hs
    by_cases hc : c = ""
    · subst hc
      simp [getSuggestedActions] at hs
    · rw [getSuggestedActions, if_neg hc] at hs
      have hmem := List.take_subset 4 _ hs
      rw [List.mem_filter] at hmem
      obtain ⟨hline, hprop⟩ := hmem
      rw [Bool.and_eq_true] at hprop
      obtain ⟨hlen, hrej⟩ := hprop
      have hrej2 : suggestionRejected s = false := by simpa using hrej
      exact ⟨of_decide_eq_true hlen, hrej2, hline⟩

/-- Witness for C10 on a concrete chat response. -/
theorem suggested_actions_properties_witness :
    0 < ("Show me the hourly forecast".length) ∧
    suggestionRejected "Show me the hourly forecast" = false ∧
    "Show me the hourly forecast" ∈
      (splitLines "Here is a list\nShow me the hourly forecast\nbased on x").map
        trimJs :=
  suggested_actions_properties.2.1
    "Here is a list\nShow me the hourly forecast\nbased on x"
    "Show me the hourly forecast" (by decide)
